import Mathlib

/-!
# Verification of the Viber notification adapter
  (src/apprise/plugins/NotifyViber.py)

A shallow embedding of the adapter's constructor, delivery loop, payload
builder and URL codec, with theorems settling the specification's claims.

Conventions of the embedding:
* Python runtime errors (NameError / UnboundLocalError, TypeError,
  AttributeError) are modelled by the `PyErr` type; fallible code returns
  `Except PyErr _`.
* Python strings are Lean `String`s; all string manipulation is done by
  structurally recursive helpers over `List Char` so that every definition
  evaluates inside the kernel.
* Collaborators of the adapter that live outside the file under
  verification (the `NotifyBase`/`URLBase` base class, `parse_list`,
  `pprint`, quoting helpers, the image resolver) are modelled from the
  specification; each such definition carries a doc comment starting with
  `Modelled from the spec:`.
-/

namespace Viber

/-- Python runtime errors that the adapter's code can raise. -/
inductive PyErr where
  /-- A bare name (or unbound local) that cannot be resolved:
      `NameError` / `UnboundLocalError`. -/
  | nameError (name : String)
  /-- `TypeError`, e.g. subscripting `None`. -/
  | typeError
  /-- `AttributeError`, e.g. calling a missing method. -/
  | attributeError (attr : String)
deriving DecidableEq

/-- A Python value that is either `None` or a string — the type of the
`user` argument of the constructor and of the base class's `self.user`
attribute. -/
inductive PyStr where
  | none
  | str (s : String)
deriving DecidableEq

/-- Python truthiness of an optional string: `None` and the empty string
are falsy, every other string is truthy. -/
def pyTruthy : Option String → Bool
  | Option.none => false
  | Option.some s => s ≠ ""

/-! ## String helpers (structurally recursive, kernel-evaluable) -/

/-- Python `str.strip` whitespace test (ASCII whitespace). -/
def isPySpace (c : Char) : Bool :=
  c = ' ' ∨ c = '\t' ∨ c = '\n' ∨ c = '\r'

/-- Drop leading characters satisfying `isPySpace`. -/
def dropLeadingSpace : List Char → List Char
  | [] => []
  | c :: rest => if isPySpace c then dropLeadingSpace rest else c :: rest

/-- Python `str.strip()`: remove leading and trailing whitespace. -/
def pyStrip (s : String) : String :=
  String.mk ((dropLeadingSpace (dropLeadingSpace s.toList.reverse).reverse))

/-- Python slicing `s[0:n]` on a string. -/
def pySliceTo (s : String) (n : Nat) : String :=
  String.mk (s.toList.take n)

/-- Python subscripting applied to a possibly-`None` value:
`v[0:n]` raises `TypeError` when `v` is `None`. -/
def pyStrSliceTo (v : PyStr) (n : Nat) : Except PyErr String :=
  match v with
  | PyStr.none => Except.error PyErr.typeError
  | PyStr.str s => Except.ok (pySliceTo s n)

/-! ## The process identity and the target-list collaborator -/

/-- Modelled from the spec: the process identity string (`self.app_id`),
"a process identity user-agent" (§4.4); the default sender name is
"derived from a process identity string if absent" (§3).  Its concrete
value is irrelevant to every claim; it is some fixed non-empty string. -/
def app_id : String := "Apprise"

/-- The raw recipient specification accepted by the constructor, as the
spec models it (§9): "a tagged variant `{Single(string), Many(sequence<string>),
Empty}` resolved once at normalization into a canonical ordered sequence". -/
inductive RawTargets where
  | empty
  | single (s : String)
  | many (l : List String)
deriving DecidableEq

/-- Modelled from the spec: `parse_list` (the `TargetList.normalize`
collaborator, §4.2), which lives outside the file under verification.
"Accepts either an already-ordered sequence of strings, or a single string
containing one identifier, or nothing.  Produces an ordered sequence with
no implicit deduplication and no reordering.  Empty input yields an empty
sequence (not an error)." -/
def normalize : RawTargets → List String
  | RawTargets.empty => []
  | RawTargets.single s => [s]
  | RawTargets.many l => l

/-! ## The adapter configuration and the constructor -/

/-- The adapter's state after construction: `{credential, sender, targets,
include_image}` (spec §2). -/
structure Config where
  token : String
  user : String
  includeImage : Bool
  targets : List String
deriving DecidableEq

/-- `NotifyViber.__init__` (src lines 119–139).

The `user` argument is consumed by the explicit constructor parameter, so
it is *not* part of the `**kwargs` forwarded to the base class; the base
class therefore leaves its `self.user` attribute unset (`None`).  Line 129
reads `self.user[0:28].strip()` — the (unset) base attribute, not the
`user` argument — whenever `user` is a string, so subscripting `None`
raises `TypeError`.  When `user` is not a string, `self.user` is assigned
`self.app_id` (line 130).  The token is stored unvalidated (line 126) and
the targets are normalized by `parse_list` (line 137). -/
def init (token : String) (user : PyStr) (targets : RawTargets)
    (includeImage : Bool) : Except PyErr Config :=
  let baseUser : PyStr := PyStr.none
  match user with
  | PyStr.str _ =>
      (pyStrSliceTo baseUser 28).map fun s =>
        { token := token, user := pyStrip s, includeImage := includeImage,
          targets := normalize targets }
  | PyStr.none =>
      Except.ok { token := token, user := app_id, includeImage := includeImage,
                  targets := normalize targets }

/-! ## The payload builder (src lines 156–205)

The payload dict literal at src lines 181–193 is missing the commas after
the `sender` sub-dict and after the `tracking_data` entry (one of the
"broken fragments" the spec's §2/§9 acknowledge); its key/value sequence
is nevertheless unambiguous and is embedded here as written. -/

/-- The HTTP headers prepared at src lines 157–161. -/
structure Headers where
  userAgent : String
  contentType : String
  authToken : String
deriving DecidableEq

/-- The vendor payload (src lines 181–193; spec §3).  `receiver` is
`Option String` with `none` standing for Python `None`; `senderAvatar`
is `none` when the `avatar` key is absent from the `sender` sub-dict. -/
structure Payload where
  receiver : Option String
  minApiVersion : Nat
  senderName : String
  senderAvatar : Option String
  trackingData : String
  msgType : String
  text : String
deriving DecidableEq

/-- The value stored under `payload['sender']['avatar']` (src lines
195–205), `none` when the key is left absent.  `selfAvatar` models the
explicitly configured avatar URL (`self.avatar`, a base-class attribute,
per spec §4.3 "an explicitly configured avatar URL"); `imageUrl` models
the image-resolver result `self.image_url(notify_type)` (spec §6
`ImageResolver.resolve`).  On the `else` branch, line 201 recomputes
`None if not self.include_image else self.image_url(...)`, where
`include_image` is true, so the resolver result is used when truthy. -/
def senderAvatarValue (includeImage : Bool) (selfAvatar imageUrl : Option String) :
    Option String :=
  if includeImage then
    if pyTruthy selfAvatar then selfAvatar
    else if pyTruthy imageUrl then imageUrl
    else Option.none
  else Option.none

/-- The payload as built before the delivery loop (src lines 181–205).
`uuid` models the fresh `uuid4()` value of this call. -/
def buildPayload (cfg : Config) (body : String) (selfAvatar imageUrl : Option String)
    (uuid : String) : Payload :=
  { receiver := Option.none,
    minApiVersion := 1,
    senderName := if cfg.user ≠ "" then cfg.user else app_id,
    senderAvatar := senderAvatarValue cfg.includeImage selfAvatar imageUrl,
    trackingData := app_id ++ "/" ++ uuid,
    msgType := "text",
    text := body }

/-! ## The delivery loop (src lines 141–272) -/

/-- The result of one call to the external HTTP transport collaborator:
either an HTTP status code or a raised `requests.RequestException`. -/
inductive HttpResult where
  | status (code : Nat)
  | exn
deriving DecidableEq

/-- The state of the Python local variable `target` inside `send`:
unbound before its first assignment, else bound to a string. -/
inductive TargetLocal where
  | unbound
  | bound (s : String)
deriving DecidableEq

/-- The error raised by src line 211, `target = target.pop()`: on the
first iteration the local `target` is unbound, so evaluating
`target.pop()` raises `UnboundLocalError` (a `NameError`); on any later
iteration `target` would hold a string, and `str` has no attribute `pop`,
so an `AttributeError` would be raised.  Either way the statement raises
before the throttle call (line 219) and the transport call (line 221) of
the same iteration can run. -/
def popError : TargetLocal → PyErr
  | TargetLocal.unbound => PyErr.nameError "target"
  | TargetLocal.bound _ => PyErr.attributeError "pop"

/-- The `while targets:` loop of src lines 210–272, embedded over the
remaining copied target list and the state of the local `target`.  An
empty remaining list falls through to `return not has_error` (line 272);
a non-empty list evaluates line 211, which always raises (`popError`),
so lines 213–270 of the body are unreachable. -/
def sendLoop (remaining : List String) (tgt : TargetLocal) (hasError : Bool) :
    Except PyErr Bool :=
  match remaining with
  | [] => Except.ok (!hasError)
  | _ :: _ => Except.error (popError tgt)

deriving instance DecidableEq for Except

/-- The observable outcome of one `send` call: its result (a boolean, or
a raised Python error), the number of calls made to the HTTP transport
collaborator, the number of throttle invocations, and the warnings
logged. -/
structure SendOutcome where
  result : Except PyErr Bool
  transportCalls : Nat
  throttleCalls : Nat
  warnings : List String
deriving DecidableEq

/-- `NotifyViber.send` (src lines 141–272).

* Lines 147–151: an empty target list logs a warning and returns `False`
  with no I/O.
* Lines 157–205: headers and the payload template are prepared.
* Line 208 copies the target list; the loop of lines 210–272 then raises
  on its first iteration (see `sendLoop` / `popError`), before any
  throttle or transport call, so `transportCalls` and `throttleCalls`
  are zero on every path.  The `transport` argument models the external
  HTTP collaborator (the result of the i-th `requests.post`); the code
  never consults it. -/
def send (cfg : Config) (body : String) (selfAvatar imageUrl : Option String)
    (uuid : String) (transport : Nat → HttpResult) : SendOutcome :=
  if cfg.targets.length = 0 then
    { result := Except.ok false,
      transportCalls := 0,
      throttleCalls := 0,
      warnings := ["There were no Viber targets to notify."] }
  else
    let headers : Headers :=
      { userAgent := app_id, contentType := "application/json",
        authToken := cfg.token }
    let payload := buildPayload cfg body selfAvatar imageUrl uuid
    let _ := (headers, payload, transport)
    { result := sendLoop cfg.targets TargetLocal.unbound false,
      transportCalls := 0,
      throttleCalls := 0,
      warnings := [] }

/-! ## Percent-encoding helpers -/

/-- Upper-case hexadecimal digit of a value below 16. -/
def hexDigit (n : Nat) : Char :=
  if n < 10 then Char.ofNat (48 + n) else Char.ofNat (55 + n)

/-- Characters that percent-encoding leaves untouched (RFC 3986
unreserved characters). -/
def isUnreserved (c : Char) : Bool :=
  c.isAlphanum ∨ c = '_' ∨ c = '.' ∨ c = '-' ∨ c = '~'

/-- Percent-encode a single character, keeping unreserved characters and
the characters of `safe`. -/
def quoteChar (safe : List Char) (c : Char) : List Char :=
  if isUnreserved c ∨ safe.contains c then [c]
  else ['%', hexDigit (c.toNat / 16 % 16), hexDigit (c.toNat % 16)]

/-- Modelled from the spec: the `quote` helper inherited from the base
class — percent-encoding with a `safe` character set ("Targets are
percent-encoded except for a defined safe character used by this
vendor's ID format (`=`)", §4.1). -/
def pyQuote (s : String) (safe : String) : String :=
  String.mk ((s.toList.map (quoteChar safe.toList)).flatten)

/-- Value of one (upper- or lower-case) hexadecimal digit. -/
def hexVal (c : Char) : Option Nat :=
  if '0' ≤ c ∧ c ≤ '9' then Option.some (c.toNat - 48)
  else if 'A' ≤ c ∧ c ≤ 'F' then Option.some (c.toNat - 55)
  else if 'a' ≤ c ∧ c ≤ 'f' then Option.some (c.toNat - 87)
  else Option.none

/-- Decode `%XX` escapes in a character list; malformed escapes are kept
verbatim. -/
def unquoteChars : List Char → List Char
  | [] => []
  | ['%'] => ['%']
  | ['%', a] => ['%', a]
  | '%' :: a :: b :: rest =>
    match hexVal a, hexVal b with
    | Option.some x, Option.some y => Char.ofNat (16 * x + y) :: unquoteChars rest
    | _, _ => '%' :: unquoteChars (a :: b :: rest)
  | c :: rest => c :: unquoteChars rest

/-- Modelled from the spec: the `unquote` helper inherited from the base
class — percent-decoding ("Host ... IS unquoted as a path/credential
string.  Path segments are unquoted before becoming targets", §4.1). -/
def pyUnquote (s : String) : String :=
  String.mk (unquoteChars s.toList)

/-! ## URL serialization (src lines 274–303) -/

/-- Insert a key/value pair into a list sorted by key. -/
def insertParam (p : String × String) : List (String × String) → List (String × String)
  | [] => [p]
  | q :: rest => if p.1 < q.1 then p :: q :: rest else q :: insertParam p rest

/-- Sort query parameters by key. -/
def sortParams : List (String × String) → List (String × String)
  | [] => []
  | p :: rest => insertParam p (sortParams rest)

/-- Join strings with a separator. -/
def joinWith (sep : String) : List String → String
  | [] => ""
  | [s] => s
  | s :: rest => s ++ sep ++ joinWith sep rest

/-- Modelled from the spec: the base class's `urlencode` — "Query
parameters are re-emitted in a stable, sorted order for determinism"
(§4.1); values are percent-encoded. -/
def urlencode (params : List (String × String)) : String :=
  joinWith "&" ((sortParams params).map fun p => p.1 ++ "=" ++ pyQuote p.2 "")

/-- The masked credential rendering over characters: first and last
character preserved, middle replaced by a fixed filler. -/
def maskChars (l : List Char) : List Char :=
  l.take 1 ++ ['*', '*', '*'] ++ l.drop (l.length - 1)

/-- The masked credential token as a string. -/
def mask (s : String) : String :=
  String.mk (maskChars s.toList)

/-- The mask window: the fixed length of the masked token rendered for a
non-empty credential. -/
def maskWindow : Nat := 5

/-- Modelled from the spec: the base class's `pprint` with
`mode=PrivacyMode.Secret` — "When privacy_mode requests masking, the
credential is rendered as a fixed-length masked token (e.g., first/last
character preserved, middle replaced)" (§4.1); with privacy off the
value is percent-encoded with the given safe set. -/
def pprint (s : String) (privacy : Bool) (safe : String) : String :=
  if privacy then mask s else pyQuote s safe

/-- Modelled from the spec: the base class's `url_parameters` — the
generic query parameters every adapter re-emits (§4.1, §6).  The
`include_image` flag is not among them, and `NotifyViber.url` itself
adds only the `avatar` parameter (src lines 280–285). -/
def url_parameters : List (String × String) := [("verify", "yes")]

/-- `NotifyViber.url` (src lines 274–303): serialize the configuration to
`viber://{sender}{token}/{targets}?{params}`.  `selfAvatar` models the
base-class `self.avatar` attribute tested on line 281; the sender prefix
is emitted only when `self.user` is truthy (lines 288–292); the token is
rendered through `pprint` with `PrivacyMode.Secret` and `safe=''`
(lines 298–299); targets are quoted with `safe='='` and joined with `/`
(lines 300–301). -/
def viber_url (cfg : Config) (selfAvatar : Option String) (privacy : Bool) : String :=
  let params : List (String × String) :=
    (match selfAvatar with
     | Option.some a => if a ≠ "" then [("avatar", a)] else []
     | Option.none => []) ++ url_parameters
  let sender := if cfg.user ≠ "" then pyQuote cfg.user "" ++ "@" else ""
  "viber://" ++ sender ++ pprint cfg.token privacy "" ++ "/"
    ++ joinWith "/" (cfg.targets.map fun x => pyQuote x "=")
    ++ "?" ++ urlencode params

/-! ## URL parsing (src lines 305–338) -/

/-- The decomposition returned by the base class's `parse_url`. -/
structure BaseResults where
  user : Option String
  host : String
  fullpath : String
  qsd : List (String × String)
deriving DecidableEq

/-- Split a character list on a separator character. -/
def splitChars (sep : Char) : List Char → List (List Char)
  | [] => [[]]
  | c :: rest =>
    let r := splitChars sep rest
    if c = sep then [] :: r
    else
      match r with
      | [] => [[c]]
      | g :: gs => (c :: g) :: gs

/-- Split a string on a separator character. -/
def pySplit (s : String) (sep : Char) : List String :=
  (splitChars sep s.toList).map String.mk

/-- Parse a query string into an association list of unquoted values. -/
def parseQsd (query : String) : List (String × String) :=
  (pySplit query '&').filterMap fun kv =>
    if kv = "" then Option.none
    else
      match pySplit kv '=' with
      | [] => Option.none
      | k :: vs => Option.some (k, pyUnquote (joinWith "=" vs))

/-- Look a key up in the query-string dictionary. -/
def lookupParam (qsd : List (String × String)) (key : String) : Option String :=
  match qsd with
  | [] => Option.none
  | p :: rest => if p.1 = key then Option.some p.2 else lookupParam rest key

/-- Modelled from the spec: `NotifyBase.parse_url` with
`verify_host=False` (§4.1, §6) — decomposes
`viber://[user@]host/path?query` into user, host, full path and query
dictionary, and "fails with ParseError when the URL cannot be minimally
decomposed (host missing)". -/
def base_parse_url (url : String) : Option BaseResults :=
  if url.toList.take 8 ≠ "viber://".toList then Option.none
  else
    let rest := String.mk (url.toList.drop 8)
    let bodyQuery :=
      match pySplit rest '?' with
      | [] => ("", "")
      | b :: qs => (b, joinWith "?" qs)
    let authPath :=
      match pySplit bodyQuery.1 '/' with
      | [] => ("", "")
      | a :: ps => (a, if ps = [] then "" else "/" ++ joinWith "/" ps)
    let userHost :=
      match (pySplit authPath.1 '@').reverse with
      | [] => (Option.none, "")
      | h :: restRev =>
        (if restRev = [] then Option.none
         else Option.some (pyUnquote (joinWith "@" restRev.reverse)), h)
    if userHost.2 = "" then Option.none
    else Option.some
      { user := userHost.1, host := userHost.2,
        fullpath := authPath.2, qsd := parseQsd bodyQuery.2 }

/-- Modelled from the spec: the base class's `split_path` — splits the
full path into segments, unquoting each and dropping empty segments
("split_path() looks after unquoting content for us", src line 318;
"Path segments are unquoted before becoming targets", §4.1). -/
def split_path (fullpath : String) : List String :=
  (pySplit fullpath '/').filterMap fun seg =>
    if seg = "" then Option.none else Option.some (pyUnquote seg)

/-- Modelled from the spec: the base class's `parse_list` applied to the
`to` query value — "to (alias for additional targets, comma-separated,
appended after path-derived targets)" (§4.1). -/
def parse_list_str (v : String) : List String :=
  (pySplit v ',').filter fun s => s ≠ ""

/-- The configuration fragment `NotifyViber.parse_url` is meant to
return (src docstring: "returns enough arguments that can allow us to
re-instantiate this object"). -/
structure ViberResults where
  user : Option String
  token : String
  targets : List String
  includeImage : Bool
deriving DecidableEq

/-- `NotifyViber.parse_url` (src lines 305–338).  A URL the base parser
rejects returns the falsy result unchanged (`Option.none`, lines
313–316).  Otherwise targets are taken from the path (lines 320–321),
the token from the unquoted host (line 326), and `to=` targets are
appended (lines 330–332).  Line 336 then evaluates the bare name
`parse_bool`, which is neither imported nor defined in the module, so
every successful base parse ends in a `NameError` before
`include_image` can be set and before any result is returned. -/
def viber_parse_url (url : String) : Except PyErr (Option ViberResults) :=
  match base_parse_url url with
  | Option.none => Except.ok Option.none
  | Option.some r =>
    let targets0 := split_path r.fullpath
    let token := pyUnquote r.host
    let targets1 :=
      match lookupParam r.qsd "to" with
      | Option.some v => if v ≠ "" then targets0 ++ parse_list_str v else targets0
      | Option.none => targets0
    let _ := (token, targets1)
    Except.error (PyErr.nameError "parse_bool")

/-! ## Claims -/

/-- Claim C1: the claim says parsing the URL serialized from a valid
configuration with privacy off yields an equal configuration.  The code
violates it: `parse_url` evaluates the unimported name `parse_bool`
(src line 336) and so raises `NameError` on every URL the base parser
accepts; moreover the serialized URL carries no `image` query parameter
(so even without the `NameError`, `include_image := false` could not
round-trip, the parser defaulting it to true).  Evaluated here at the
concrete configuration `{token := "tok123", user := "Apprise",
include_image := false, targets := ["abc"]}`. -/
theorem c1_roundtrip_parse_raises :
    viber_parse_url
        (viber_url ⟨"tok123", "Apprise", false, ["abc"]⟩ Option.none false) =
      Except.error (PyErr.nameError "parse_bool") ∧
    (base_parse_url
        (viber_url ⟨"tok123", "Apprise", false, ["abc"]⟩ Option.none false)).map
        (fun r => lookupParam r.qsd "image") =
      Option.some Option.none := by
  decide

/-- Claim C2: with an empty target list, `send` logs the no-targets
warning and returns false, with zero transport calls and zero throttle
invocations (src lines 147–151). -/
theorem c2_empty_targets_no_transport (cfg : Config) (body : String)
    (selfAvatar imageUrl : Option String) (uuid : String)
    (transport : Nat → HttpResult) (h : cfg.targets = []) :
    send cfg body selfAvatar imageUrl uuid transport =
      { result := Except.ok false, transportCalls := 0, throttleCalls := 0,
        warnings := ["There were no Viber targets to notify."] } := by
  simp [send, h]

/-- Witness for claim C2 at a concrete empty-target configuration. -/
theorem c2_empty_targets_no_transport_witness :
    send ⟨"tok", "Apprise", true, []⟩ "hello" Option.none Option.none "u"
        (fun _ => HttpResult.status 200) =
      { result := Except.ok false, transportCalls := 0, throttleCalls := 0,
        warnings := ["There were no Viber targets to notify."] } :=
  c2_empty_targets_no_transport ⟨"tok", "Apprise", true, []⟩ "hello"
    Option.none Option.none "u" (fun _ => HttpResult.status 200) rfl

/-- Claim C3: the claim says that with 3 targets where the transport call
for target 2 raises and targets 1 and 3 return 200, `send` returns false
after exactly 3 transport calls.  The code violates it: the first loop
iteration evaluates `target = target.pop()` (src line 211) on the unbound
local `target`, raising `UnboundLocalError` before any throttle or
transport call, so `send` raises with zero transport calls instead of
returning false after three. -/
theorem c3_fault_isolation_loop_raises :
    send ⟨"tok", "Apprise", true, ["t1", "t2", "t3"]⟩ "hello"
        Option.none Option.none "u"
        (fun i => if i = 1 then HttpResult.exn else HttpResult.status 200) =
      { result := Except.error (PyErr.nameError "target"), transportCalls := 0,
        throttleCalls := 0, warnings := [] } := by
  decide

/-- Claim C4: the claim says that with every transport call returning
201, `send` returns true.  The code violates it: the loop raises
`UnboundLocalError` on its first iteration (src line 211), so `send`
never returns true for a non-empty target list.  Evaluated at a
two-target configuration with an all-201 transport. -/
theorem c4_all_success_loop_raises :
    send ⟨"tok", "Apprise", true, ["r1", "r2"]⟩ "body"
        Option.none Option.none "u" (fun _ => HttpResult.status 201) =
      { result := Except.error (PyErr.nameError "target"), transportCalls := 0,
        throttleCalls := 0, warnings := [] } := by
  decide

/-- Claim C5: the claim says `send` issues one request per target in
stored order with the i-th payload's receiver equal to the i-th target.
The code violates it: the loop raises before any request (src line 211),
and the payload template's `receiver` is initialized to `None`
(src line 183) and never assigned anywhere in the loop.  Evaluated at a
concrete two-target configuration. -/
theorem c5_receiver_never_set :
    send ⟨"tok", "Apprise", true, ["a", "b"]⟩ "msg"
        Option.none Option.none "u" (fun _ => HttpResult.status 200) =
      { result := Except.error (PyErr.nameError "target"), transportCalls := 0,
        throttleCalls := 0, warnings := [] } ∧
    (buildPayload ⟨"tok", "Apprise", true, ["a", "b"]⟩ "msg"
        Option.none Option.none "u").receiver = Option.none := by
  decide

/-- Claim C6: target normalization at construction is order- and
multiplicity-preserving: a sequence is stored unchanged (order and
duplicates kept), a single string becomes a one-element sequence, and
empty or absent input yields an empty stored sequence rather than an
error (src line 137; normalize modelled from spec §4.2/§9). -/
theorem c6_normalize_preserves_order (token : String) (b : Bool)
    (l : List String) (s : String) :
    normalize (RawTargets.many l) = l ∧
    (init token PyStr.none (RawTargets.many l) b).map Config.targets =
      Except.ok l ∧
    (init token PyStr.none (RawTargets.single s) b).map Config.targets =
      Except.ok [s] ∧
    (init token PyStr.none RawTargets.empty b).map Config.targets =
      Except.ok [] :=
  ⟨rfl, rfl, rfl, rfl⟩

/-- Claim C7: the claim says a 40-character configured sender is stored
truncated to its first 28 characters.  The code violates it: src line
129 slices `self.user` — the base-class attribute, which is unset
because the `user` argument is consumed by the constructor parameter
and never forwarded to the base class — instead of the `user` argument,
so constructing with any string sender raises `TypeError`
(subscripting `None`).  Evaluated at a 40-character sender; the second
conjunct confirms the claim's other half: with no sender configured the
stored sender is the process identity string. -/
theorem c7_sender_truncation_raises :
    init "tok" (PyStr.str (String.mk (List.replicate 40 'a')))
        RawTargets.empty true = Except.error PyErr.typeError ∧
    (init "tok" PyStr.none RawTargets.empty true).map Config.user =
      Except.ok app_id := by
  decide

/-- Claim C8 counterexample: the claim says the privacy-on URL never
contains a credential longer than the mask window as a literal
substring.  It fails when another field carries the credential: with
credential `"abcdef"` (length 6 > 5) and target list `["abcdef"]`, the
serialized URL `viber://Apprise@a***f/abcdef?verify=yes` contains the
credential through the target path segment. -/
theorem c8_mask_counterexample :
    maskWindow < ("abcdef" : String).length ∧
    ("abcdef" : String).toList <:+:
      (viber_url ⟨"abcdef", "Apprise", true, ["abcdef"]⟩
        Option.none true).toList := by
  refine ⟨by decide, ?_⟩
  exact ⟨("viber://Apprise@a***f/" : String).toList,
         ("?verify=yes" : String).toList, by decide⟩

/-- Claim C8 as amended: the credential component of the privacy-on URL
(the token rendered through `pprint` with privacy on) is a fixed-length
masked token that never contains a credential longer than the mask
window as a substring; the credential can still appear in the URL when
another field (such as a target) contains it. -/
theorem c8_masked_token_excludes_credential (cfg : Config)
    (h : maskWindow < cfg.token.length) :
    ¬ cfg.token.toList <:+: (pprint cfg.token true "").toList := by
  intro hinf
  have hlen : cfg.token.toList.length ≤ (maskChars cfg.token.toList).length :=
    List.IsInfix.length_le hinf
  have h5 : 5 < cfg.token.toList.length := h
  simp only [maskChars, List.length_append, List.length_take,
    List.length_drop, List.length_cons, List.length_nil] at hlen
  omega

/-- Witness for the amended claim C8 at a concrete six-character
credential. -/
theorem c8_masked_token_excludes_credential_witness :
    ¬ ("abcdef" : String).toList <:+: (pprint "abcdef" true "").toList :=
  c8_masked_token_excludes_credential ⟨"abcdef", "Apprise", true, []⟩
    (by decide)

/-- Claim C9: avatar precedence in the built payload: with include_image
true and both an explicit avatar and a resolver-derived avatar
available (truthy), `sender.avatar` equals the explicit one; with
include_image false, the `sender.avatar` key is absent regardless of
what is available (src lines 195–205). -/
theorem c9_avatar_precedence (cfg1 cfg2 : Config) (body uuid : String)
    (a b x y : Option String) (h1 : pyTruthy a = true)
    (h2 : pyTruthy b = true) (hi1 : cfg1.includeImage = true)
    (hi2 : cfg2.includeImage = false) :
    (buildPayload cfg1 body a b uuid).senderAvatar = a ∧
    (buildPayload cfg2 body x y uuid).senderAvatar = Option.none := by
  constructor
  · simp [buildPayload, senderAvatarValue, hi1, h1]
  · simp [buildPayload, senderAvatarValue, hi2]

/-- Witness for claim C9 at concrete configurations and avatars. -/
theorem c9_avatar_precedence_witness :
    (buildPayload ⟨"tok", "Apprise", true, ["r"]⟩ "hi"
        (Option.some "http://a") (Option.some "http://b") "u").senderAvatar =
      Option.some "http://a" ∧
    (buildPayload ⟨"tok", "Apprise", false, ["r"]⟩ "hi"
        (Option.some "http://a") (Option.some "http://b") "u").senderAvatar =
      Option.none :=
  c9_avatar_precedence ⟨"tok", "Apprise", true, ["r"]⟩
    ⟨"tok", "Apprise", false, ["r"]⟩ "hi" "u"
    (Option.some "http://a") (Option.some "http://b")
    (Option.some "http://a") (Option.some "http://b")
    (by decide) (by decide) rfl rfl

/-- Claim C10 counterexample: the claim says construction with an empty
credential fails with a configuration error.  It does not: `__init__`
stores the token unvalidated (src line 126), so construction with the
empty credential succeeds and the stored credential is empty. -/
theorem c10_empty_credential_accepted :
    init "" PyStr.none RawTargets.empty true =
      Except.ok { token := "", user := app_id, includeImage := true,
                  targets := [] } := by
  decide

/-- Claim C10 as amended: construction performs no credential
validation: for every credential string — the empty string included —
construction with an absent sender succeeds and stores the credential
unchanged, so the non-emptiness invariant is not established at
construction time. -/
theorem c10_init_stores_credential_unvalidated (token : String)
    (targets : RawTargets) (b : Bool) :
    init token PyStr.none targets b =
      Except.ok { token := token, user := app_id, includeImage := b,
                  targets := normalize targets } :=
  rfl

end Viber
